import Mathlib

/-!
Verification of the wharf-provider-azuredevops repository.

This file gives a shallow embedding of the parts of the Go program that the
checked claims are about, and proves or refutes each claim against it.

The embedding follows the newest variant of each source file (the repository
ships several superseded historical variants of the same logic; where a claim
cites a superseded variant, that variant is embedded separately and named with
a `legacy` marker).  External HTTP collaborators (the Azure DevOps REST API
and the Wharf orchestration API) are modelled as oracles: structures of
functions from the request parameters to the response the remote side would
produce.  Every importer operation returns, next to its Go result values, the
list of Wharf API calls it issued, so that claims about which calls are or
are not made can be stated.
-/

/- ## Naming translator (internal/parseutil, and its copy in package main)

Go source (src/unnamed/part_012):

    func splitStringOnceRune(value string, delimiter rune) (a, b string) {
      const notFoundIndex = -1
      delimiterIndex := strings.IndexRune(value, delimiter)
      if delimiterIndex == notFoundIndex { a = value; b = ""; return }
      a = value[:delimiterIndex]
      b = value[delimiterIndex+1:]
      return
    }

`strings.IndexRune` returns the byte index of the first occurrence, or -1.
We model strings as `String` and index by character; the Go byte slicing
happens exactly at the rune boundary of the first delimiter occurrence, so
the two produced strings agree with character-level take/drop. -/

/-- Model of Go `strings.IndexRune` scanning a character list, carrying the
current index.  Returns -1 (as Go does) when the rune does not occur. -/
def indexRuneAux (l : List Char) (delimiter : Char) (i : Nat) : Int :=
  match l with
  | [] => -1
  | c :: rest => if c = delimiter then (i : Int) else indexRuneAux rest delimiter (i + 1)

/-- Model of Go `strings.IndexRune value delimiter`. -/
def stringIndexRune (value : String) (delimiter : Char) : Int :=
  indexRuneAux value.toList delimiter 0

/-- Embeds `splitStringOnceRune` from internal/parseutil. -/
def splitStringOnceRune (value : String) (delimiter : Char) : String × String :=
  let notFoundIndex : Int := -1
  let delimiterIndex := stringIndexRune value delimiter
  if delimiterIndex = notFoundIndex then
    (value, "")
  else
    (⟨value.toList.take delimiterIndex.toNat⟩, ⟨value.toList.drop (delimiterIndex.toNat + 1)⟩)

/-- Embeds `ParseRepoRefParams` from internal/parseutil:

    azureOrgName, azureProjectName = splitStringOnceRune(wharfGroupName, '/')
    if azureProjectName == "" {
      azureProjectName = wharfProjectName
      azureRepoName = ""
    } else {
      azureRepoName = wharfProjectName
    }
-/
def ParseRepoRefParams (wharfGroupName wharfProjectName : String) :
    String × String × String :=
  let (azureOrgName, azureProjectName) := splitStringOnceRune wharfGroupName '/'
  if azureProjectName = "" then
    (azureOrgName, wharfProjectName, "")
  else
    (azureOrgName, azureProjectName, wharfProjectName)

/- ## Data model

Mirrors of the Go structs that the claims touch.  Azure-side structs come
from internal/azureapi/models.go; Wharf-side structs mirror the wharf-api
request/response models used by internal/importer/importer.go.  Unsigned Go
integers (`uint`) are modelled as `Nat`, signed ones (`int`, `int64`) as
`Int`, Go strings as `String`. -/

/-- Mirrors azureapi.Project (id, name, description, url, state, revision,
visibility). -/
structure AzureProject where
  id : String
  name : String
  description : String
  url : String
  state : String
  revision : Int
  visibility : String
deriving DecidableEq

/-- Mirrors azureapi.Repository. -/
structure AzureRepository where
  id : String
  name : String
  url : String
  project : AzureProject
  defaultBranchRef : String
  size : Int
  remoteURL : String
  sshURL : String
deriving DecidableEq

/-- Mirrors azureapi.Branch.  The client only ever fills `name` and `ref`,
leaving `defaultBranch` at its zero value `false`. -/
structure AzureBranch where
  name : String
  ref : String
  defaultBranch : Bool
deriving DecidableEq

/-- One entry of the Azure DevOps refs listing.  The Go client decodes
objectId, name, creator and url, but only the `name` field is ever read;
the unread fields are omitted here. -/
structure GitRef where
  name : String
deriving DecidableEq

/-- Mirrors the repositoryResponse JSON shape ({count, value}) decoded by the
legacy azureapi client.  `count` comes from the JSON body and may disagree
with `value.length`. -/
structure RepositoryResponse where
  count : Int
  value : List AzureRepository
deriving DecidableEq

/-- Mirrors azureapi.PullRequestEvent.Resource. -/
structure PullRequestResource where
  pullRequestID : Nat
  sourceRefName : String
deriving DecidableEq

/-- Mirrors azureapi.PullRequestEvent. -/
structure PullRequestEvent where
  eventType : String
  resource : PullRequestResource
deriving DecidableEq

/-- Mirrors wharf-api response.Token (TokenID, Token, UserName). -/
structure ResponseToken where
  tokenID : Nat
  token : String
  userName : String
deriving DecidableEq

/-- Mirrors wharf-api request.Token (Token, UserName, ProviderID). -/
structure RequestToken where
  token : String
  userName : String
  providerID : Nat
deriving DecidableEq

/-- Mirrors wharf-api response.Provider (ProviderID, Name, URL, TokenID). -/
structure ResponseProvider where
  providerID : Nat
  name : String
  url : String
  tokenID : Nat
deriving DecidableEq

/-- Mirrors wharf-api request.Provider (Name, URL, TokenID). -/
structure RequestProvider where
  name : String
  url : String
  tokenID : Nat
deriving DecidableEq

/-- Mirrors wharf-api response.Project.  Of its many fields the importer only
ever reads `ProjectID`, so only that field is modelled. -/
structure ResponseProject where
  projectID : Nat
deriving DecidableEq

/-- Mirrors wharf-api request.Project as filled by the importer
(name, tokenID, groupName, buildDefinition, description, providerID, gitURL,
remoteProjectID). -/
structure RequestProject where
  name : String
  tokenID : Nat
  groupName : String
  buildDefinition : String
  description : String
  providerID : Nat
  gitURL : String
  remoteProjectID : String
deriving DecidableEq

/-- Mirrors wharf-api request.ProjectUpdate as filled by the importer: the
same fields as request.Project except that no remote project ID is sent. -/
structure RequestProjectUpdate where
  name : String
  tokenID : Nat
  groupName : String
  buildDefinition : String
  description : String
  providerID : Nat
  gitURL : String
deriving DecidableEq

/-- Mirrors wharf-api request.Branch as filled by the importer
(Name, Default). -/
structure RequestBranch where
  name : String
  default : Bool
deriving DecidableEq

/-- Mirrors wharfapi.ProjectRun (ProjectID, Stage, Branch, Environment). -/
structure ProjectRun where
  projectID : Nat
  stage : String
  branch : String
  environment : String
deriving DecidableEq

/-- Mirrors wharfapi.ProjectRunResponse; only the build reference matters. -/
structure ProjectRunResponse where
  buildRef : Nat
deriving DecidableEq

/-- Go zero value of response.Token. -/
def zeroResponseToken : ResponseToken := { tokenID := 0, token := "", userName := "" }

/-- Go zero value of response.Provider. -/
def zeroResponseProvider : ResponseProvider :=
  { providerID := 0, name := "", url := "", tokenID := 0 }

/-- Go zero value of response.Project. -/
def zeroResponseProject : ResponseProject := { projectID := 0 }

/-- Go zero value of azureapi.Project. -/
def zeroAzureProject : AzureProject :=
  { id := "", name := "", description := "", url := "", state := "", revision := 0,
    visibility := "" }

/-- Go zero value of azureapi.Repository. -/
def zeroAzureRepository : AzureRepository :=
  { id := "", name := "", url := "", project := zeroAzureProject, defaultBranchRef := "",
    size := 0, remoteURL := "", sshURL := "" }

/- ## Error classification of the HTTP layer (pkg/requests)

pkg/requests/errors.go defines Non2xxStatusError carrying the HTTP status
code; any other failure (network, URL, read) is unclassified. -/

/-- Outcome classification of a pkg/requests fetch failure: a non-2xx HTTP
status (carrying the status code, mirroring Non2xxStatusError.StatusCode) or
any other error. -/
inductive FetchError where
  | non2xx (statusCode : Nat)
  | other
deriving DecidableEq

/- ## Oracles for the two remote HTTP collaborators

Each field maps the parameters of one outbound request to the response the
remote side yields for it; `Except` distinguishes the error outcomes the Go
code branches on. -/

/-- Responses of the Azure DevOps REST API, one field per endpoint used. -/
structure AzureAPI where
  /-- Result of `requests.GetAsString` on the file-contents URL
  (org, project, repo, filePath). -/
  getFile : String → String → String → String → Except FetchError String
  /-- Result of decoding the git-refs listing (org, project, repo). -/
  getRefs : String → String → String → Except Unit (List GitRef)
  /-- Result of decoding the single-repository response (org, project, repo);
  used by the current client variant. -/
  getRepository : String → String → String → Except Unit AzureRepository
  /-- Result of decoding the repositories listing (group, project) as the
  legacy client variant did, into a {count, value} pair. -/
  getRepositoriesLegacy : String → String → Except Unit RepositoryResponse

/-- Classification of a Wharf API client error: wharfapi.AuthError (HTTP 401)
or any other failure. -/
inductive WharfError where
  | auth
  | other
deriving DecidableEq

/-- Responses of the Wharf orchestration API, one field per client call used
by the importer and the trigger handler. -/
structure WharfAPI where
  getToken : Nat → Except Unit ResponseToken
  getTokenList : String → Except Unit (List ResponseToken)
  createToken : RequestToken → Except Unit ResponseToken
  getProvider : Nat → Except Unit ResponseProvider
  getProviderList : String → String → Except Unit (List ResponseProvider)
  getProjectList : String → String → Nat → Except Unit (List ResponseProject)
  createProvider : RequestProvider → Except Unit ResponseProvider
  updateProject : Nat → RequestProjectUpdate → Except Unit ResponseProject
  createProject : RequestProject → Except Unit ResponseProject
  createProjectBranch : Nat → RequestBranch → Except Unit Unit
  postProjectRun : ProjectRun → Except WharfError ProjectRunResponse

/-- One outbound Wharf API call, as recorded in the traces the embedded
functions return. -/
inductive WharfCall where
  | getToken (tokenID : Nat)
  | getTokenList (userName : String)
  | createToken (req : RequestToken)
  | getProvider (providerID : Nat)
  | getProviderList (name url : String)
  | getProjectList (name groupName : String) (providerID : Nat)
  | createProvider (req : RequestProvider)
  | updateProject (projectID : Nat) (req : RequestProjectUpdate)
  | createProject (req : RequestProject)
  | createProjectBranch (projectID : Nat) (req : RequestBranch)
  | postProjectRun (run : ProjectRun)
deriving DecidableEq

/- ## Provider API client (internal/azureapi/client.go, current variant) -/

/-- The fixed build-definition filename from internal/importer/importer.go. -/
def buildDefinitionFileName : String := ".wharf-ci.yml"

/-- Models Go `strings.TrimPrefix s pre`: drops `pre` when it is a leading
piece of `s`, otherwise returns `s` unchanged.  Stated on the character
lists underlying the strings (equivalent to Go's byte view: a UTF-8 string
is byte-prefixed by another exactly when it is character-prefixed by it). -/
def trimLeading (s pre : String) : String :=
  if pre.toList.isPrefixOf s.toList then ⟨s.toList.drop pre.toList.length⟩ else s

/-- Embeds the current `Client.GetFileWritesProblem` (fetches via
`requests.GetAsString`; a Non2xxStatusError with status 404 yields an empty
string and success; any other error fails; otherwise the body is returned). -/
def GetFileWritesProblem (a : AzureAPI)
    (orgName projectNameOrID repoNameOrID filePath : String) : String × Bool :=
  match a.getFile orgName projectNameOrID repoNameOrID filePath with
  | .error (.non2xx 404) => ("", true)
  | .error _ => ("", false)
  | .ok fileContents => (fileContents, true)

/-- Embeds the current `Client.GetRepositoryBranchesWritesProblem`: decodes
the refs listing filtered to `heads/`, then strips the `refs/heads/` prefix
from each ref name to obtain each branch name, keeping the full ref. -/
def GetRepositoryBranchesWritesProblem (a : AzureAPI)
    (orgName projectNameOrID repoNameOrID : String) : List AzureBranch × Bool :=
  match a.getRefs orgName projectNameOrID repoNameOrID with
  | .error _ => ([], false)
  | .ok projectRefs =>
      (projectRefs.map (fun r =>
        { name := trimLeading r.name "refs/heads/", ref := r.name,
          defaultBranch := false }), true)

/-- Embeds the current `Client.GetRepositoryWritesProblem` (three string
arguments): fetches a single repository and returns it.  Note: this variant
performs no consistency check of the repository's linked project. -/
def GetRepositoryWritesProblem (a : AzureAPI)
    (orgName projectNameOrID repoNameOrID : String) : AzureRepository × Bool :=
  match a.getRepository orgName projectNameOrID repoNameOrID with
  | .error _ => (zeroAzureRepository, false)
  | .ok repository => (repository, true)

/-- Embeds the superseded `Client.GetRepositoryWritesProblem(groupName,
project Project)` variant (first client.go variant, lines 90-137): decodes a
{count, value} repositories response, fails unless count = 1, fails when the
first repository's linked project ID differs from the given project's ID,
and otherwise returns the first repository.  (Go would panic when count = 1
but value is empty; the `headD` below is only ever exercised by theorems
whose hypotheses give a non-empty `value`.) -/
def legacyGetRepositoryWritesProblem (a : AzureAPI)
    (groupName : String) (project : AzureProject) : AzureRepository × Bool :=
  match a.getRepositoriesLegacy groupName project.name with
  | .error _ => (zeroAzureRepository, false)
  | .ok repositories =>
      if repositories.count ≠ 1 then
        (zeroAzureRepository, false)
      else
        let freshProjectID := (repositories.value.headD zeroAzureRepository).project.id
        if freshProjectID ≠ project.id then
          (zeroAzureRepository, false)
        else
          (repositories.value.headD zeroAzureRepository, true)

/- ## Request URL builders

Models the URL construction of the six provider endpoints.  A Go `url.URL`
is modelled by the path component set by the builder together with the list
of query parameters in the order they are `Add`ed; the scheme/host of the
base URL and the percent-encoding and key-sorting of `Encode` are irrelevant
to every claim and are not modelled.  For builders using `newUrlWithPath`,
`basePath` records the base URL's path that Go's `path.Join` would prepend
(the cleaning performed by `path.Join` is likewise not modelled). -/

/-- A built request URL: base-URL path, endpoint path, query parameters. -/
structure GoURL where
  basePath : String
  path : String
  query : List (String × String)
deriving DecidableEq

/-- Embeds the current client's `newUrlWithPath` receiver helper. -/
def newUrlWithPath (basePath pathStr : String) : GoURL :=
  { basePath := basePath, path := pathStr, query := [] }

/-- Embeds the current client's `newGetRepository`. -/
def newGetRepository (basePath orgName projectNameOrID repoNameOrID : String) : GoURL :=
  let urlPath := newUrlWithPath basePath
    (orgName ++ "/" ++ projectNameOrID ++ "/_apis/git/repositories/" ++ repoNameOrID)
  { urlPath with query := [("api-version", "5.0")] }

/-- Embeds the current client's `newGetRepositories`. -/
def newGetRepositories (basePath orgName projectNameOrID : String) : GoURL :=
  let urlPath := newUrlWithPath basePath
    (orgName ++ "/" ++ projectNameOrID ++ "/_apis/git/repositories")
  { urlPath with query := [("api-version", "5.0")] }

/-- Embeds the current client's `newGetFile`.  Its only query parameter is
`scopePath`. -/
def newGetFile (basePath orgName projectNameOrID repoNameOrID filePath : String) : GoURL :=
  let urlPath := newUrlWithPath basePath
    (orgName ++ "/" ++ projectNameOrID ++ "/_apis/git/repositories/" ++ repoNameOrID
      ++ "/items")
  { urlPath with query := [("scopePath", "/" ++ filePath)] }

/-- Embeds the current client's `newGetProject`. -/
def newGetProject (basePath orgName projectNameOrID : String) : GoURL :=
  let urlPath := newUrlWithPath basePath
    (orgName ++ "/_apis/projects/" ++ projectNameOrID)
  { urlPath with query := [("api-version", "5.0")] }

/-- Embeds the current client's `newGetProjects`. -/
def newGetProjects (basePath orgName : String) : GoURL :=
  let urlPath := newUrlWithPath basePath (orgName ++ "/_apis/projects")
  { urlPath with query := [("api-version", "5.0")] }

/-- Embeds the current client's `newGetGitRefs`. -/
def newGetGitRefs (basePath orgName projectNameOrID repoNameOrID refsFilter : String) :
    GoURL :=
  let urlPath := newUrlWithPath basePath
    (orgName ++ "/" ++ projectNameOrID ++ "/_apis/git/repositories/" ++ repoNameOrID
      ++ "/refs")
  { urlPath with query := [("api-version", "5.0"), ("filter", refsFilter)] }

/-- Embeds `NewGetFile` from pkg/requests/requests.go, which overwrites the
parsed base URL's path outright (no join); its only query parameter is
`scopePath`. -/
def NewGetFile (groupName projectName filePath : String) : GoURL :=
  { basePath := "",
    path := groupName ++ "/" ++ projectName ++ "/_apis/git/repositories/"
      ++ projectName ++ "/items",
    query := [("scopePath", "/" ++ filePath)] }

/- ## Reconciliation engine (internal/importer/importer.go, current variant)

The azureImporter receiver holds the token and provider records retrieved
from the Wharf database; the gin context and the two HTTP clients it also
holds are modelled by the explicit oracle arguments.  Every function
additionally returns the list of Wharf API calls it performed, in order. -/

/-- The token/provider state of the azureImporter receiver. -/
structure AzureImporter where
  token : ResponseToken
  provider : ResponseProvider
deriving DecidableEq

/-- Embeds `NewAzureImporter`: both database-backed fields start at their Go
zero values. -/
def NewAzureImporter : AzureImporter :=
  { token := zeroResponseToken, provider := zeroResponseProvider }

/-- Embeds `azureImporter.getOrPostTokenWritesProblem`:

* a non-zero token ID is looked up directly (failing hard on error);
* with both user name and secret empty, a validation error is reported;
* otherwise tokens are searched by user name; a search error or an empty
  result list leads to creating a new token whose ProviderID is taken from
  the receiver's current provider record;
* with a non-empty result list, the first candidate whose secret equals the
  supplied secret is returned; when none matches, the Go zero token and
  `found = false` are returned (no creation is attempted).
-/
def getOrPostTokenWritesProblem (i : AzureImporter) (w : WharfAPI)
    (token : ResponseToken) : ResponseToken × Bool × List WharfCall :=
  if token.tokenID ≠ 0 then
    match w.getToken token.tokenID with
    | .error _ => (zeroResponseToken, false, [.getToken token.tokenID])
    | .ok dbToken => (dbToken, true, [.getToken token.tokenID])
  else if token.userName = "" ∧ token.token = "" then
    (zeroResponseToken, false, [])
  else
    let create : List WharfCall → ResponseToken × Bool × List WharfCall :=
      fun trace =>
        let req : RequestToken :=
          { token := token.token, userName := token.userName,
            providerID := i.provider.providerID }
        match w.createToken req with
        | .error _ => (zeroResponseToken, false, trace ++ [.createToken req])
        | .ok createdToken => (createdToken, true, trace ++ [.createToken req])
    match w.getTokenList token.userName with
    | .error _ => create [.getTokenList token.userName]
    | .ok searchList =>
        if searchList.length = 0 then
          create [.getTokenList token.userName]
        else
          match searchList.find? (fun t => t.token == token.token) with
          | some foundToken => (foundToken, true, [.getTokenList token.userName])
          | none => (zeroResponseToken, false, [.getTokenList token.userName])

/-- Embeds `azureImporter.getOrPostProviderWritesProblem`:

* a non-zero provider ID is looked up directly (failing hard on error);
* otherwise providers are searched by (name, URL); a search error or an
  empty result list leads to creating a new provider;
* with a non-empty result list, the first candidate whose ProviderID equals
  the requested provider's ProviderID is returned (note: in this branch the
  requested ID is necessarily 0); when none matches, the Go zero provider
  and `found = false` are returned.
-/
def getOrPostProviderWritesProblem (i : AzureImporter) (w : WharfAPI)
    (provider : ResponseProvider) : ResponseProvider × Bool × List WharfCall :=
  if provider.providerID ≠ 0 then
    match w.getProvider provider.providerID with
    | .error _ => (zeroResponseProvider, false, [.getProvider provider.providerID])
    | .ok dbProvider => (dbProvider, true, [.getProvider provider.providerID])
  else
    let create : List WharfCall → ResponseProvider × Bool × List WharfCall :=
      fun trace =>
        let req : RequestProvider :=
          { name := provider.name, url := provider.url, tokenID := provider.tokenID }
        match w.createProvider req with
        | .error _ => (zeroResponseProvider, false, trace ++ [.createProvider req])
        | .ok createdProvider => (createdProvider, true, trace ++ [.createProvider req])
    match w.getProviderList provider.name provider.url with
    | .error _ => create [.getProviderList provider.name provider.url]
    | .ok searchList =>
        if searchList.length = 0 then
          create [.getProviderList provider.name provider.url]
        else
          match searchList.find? (fun p => p.providerID == provider.providerID) with
          | some foundProvider =>
              (foundProvider, true, [.getProviderList provider.name provider.url])
          | none =>
              (zeroResponseProvider, false,
                [.getProviderList provider.name provider.url])

/-- Embeds `azureImporter.InitWritesProblem`: resolves the token first, then
the provider (with its TokenID pointed at the resolved token), then parses
the resolved provider's URL to build the Azure client.  `urlParseOK` models
whether Go's `url.Parse` accepts the provider URL. -/
def InitWritesProblem (i0 : AzureImporter) (w : WharfAPI)
    (token : ResponseToken) (provider : ResponseProvider)
    (urlParseOK : String → Bool) : AzureImporter × Bool × List WharfCall :=
  let (tok, okTok, traceTok) := getOrPostTokenWritesProblem i0 w token
  let i1 : AzureImporter := { i0 with token := tok }
  if ¬ okTok then
    (i1, false, traceTok)
  else
    let providerWithTokenRef : ResponseProvider := { provider with tokenID := tok.tokenID }
    let (prov, okProv, traceProv) :=
      getOrPostProviderWritesProblem i1 w providerWithTokenRef
    let i2 : AzureImporter := { i1 with provider := prov }
    if ¬ okProv then
      (i2, false, traceTok ++ traceProv)
    else if urlParseOK i2.provider.url then
      (i2, true, traceTok ++ traceProv)
    else
      (i2, false, traceTok ++ traceProv)

/-- Embeds `azureImporter.createOrUpdateWharfProject`: builds the group name
`{orgName}/{repo.Project.Name}`, searches Wharf projects by (name, group
name, provider ID); when the result list is non-empty the FIRST listed
project is updated under its existing ID, otherwise a new project is
created (only creation sends the remote project ID). -/
def createOrUpdateWharfProject (i : AzureImporter) (w : WharfAPI)
    (orgName : String) (repo : AzureRepository) (buildDef : String) :
    Except Unit ResponseProject × List WharfCall :=
  let groupName := orgName ++ "/" ++ repo.project.name
  let searchCall := WharfCall.getProjectList repo.name groupName i.provider.providerID
  match w.getProjectList repo.name groupName i.provider.providerID with
  | .error _ => (.error (), [searchCall])
  | .ok searchList =>
      if searchList.length > 0 then
        let existingProject := searchList.headD zeroResponseProject
        let updatedProject : RequestProjectUpdate :=
          { name := repo.name, tokenID := i.token.tokenID, groupName := groupName,
            buildDefinition := buildDef, description := repo.project.description,
            providerID := i.provider.providerID, gitURL := repo.sshURL }
        (w.updateProject existingProject.projectID updatedProject,
          [searchCall, .updateProject existingProject.projectID updatedProject])
      else
        let req : RequestProject :=
          { name := repo.name, tokenID := i.token.tokenID, groupName := groupName,
            buildDefinition := buildDef, description := repo.project.description,
            providerID := i.provider.providerID, gitURL := repo.sshURL,
            remoteProjectID := repo.project.id }
        (w.createProject req, [searchCall, .createProject req])

/-- Embeds `azureImporter.importRepositoryWritesProblem` (the thin wrapper
that reports a problem when `createOrUpdateWharfProject` errs). -/
def importRepositoryWritesProblem (i : AzureImporter) (w : WharfAPI)
    (orgName : String) (repo : AzureRepository) (buildDef : String) :
    ResponseProject × Bool × List WharfCall :=
  match createOrUpdateWharfProject i w orgName repo buildDef with
  | (.error _, trace) => (zeroResponseProject, false, trace)
  | (.ok projectInDB, trace) => (projectInDB, true, trace)

/-- Embeds `azureImporter.importBranchesWritesProblem`: one
`CreateProjectBranch` call per branch, in listing order, each marked default
exactly when its ref equals the repository's default branch ref; the loop
stops at the first failing call. -/
def importBranchesWritesProblem (i : AzureImporter) (w : WharfAPI)
    (defaultBranchRef : String) (branches : List AzureBranch)
    (wharfProjectID : Nat) : Bool × List WharfCall :=
  match branches with
  | [] => (true, [])
  | branch :: rest =>
      let wharfBranch : RequestBranch :=
        { name := branch.name, default := branch.ref == defaultBranchRef }
      match w.createProjectBranch wharfProjectID wharfBranch with
      | .error _ => (false, [.createProjectBranch wharfProjectID wharfBranch])
      | .ok _ =>
          let (ok, trace) :=
            importBranchesWritesProblem i w defaultBranchRef rest wharfProjectID
          (ok, .createProjectBranch wharfProjectID wharfBranch :: trace)

/-- Embeds `azureImporter.importKnownRepositoryWritesProblem`: fetch the
build-definition file, fetch the branches, create-or-update the Wharf
project, then import the branches under the resulting project ID; each
failure aborts. -/
def importKnownRepositoryWritesProblem (i : AzureImporter) (w : WharfAPI)
    (a : AzureAPI) (orgName : String) (repo : AzureRepository) :
    Bool × List WharfCall :=
  let (buildDef, okFile) :=
    GetFileWritesProblem a orgName repo.project.name repo.name buildDefinitionFileName
  if ¬ okFile then
    (false, [])
  else
    let (branches, okBranches) :=
      GetRepositoryBranchesWritesProblem a orgName repo.project.name repo.name
    if ¬ okBranches then
      (false, [])
    else
      let (wharfProject, okProject, traceProject) :=
        importRepositoryWritesProblem i w orgName repo buildDef
      if ¬ okProject then
        (false, traceProject)
      else
        let (okBr, traceBranches) :=
          importBranchesWritesProblem i w repo.defaultBranchRef branches
            wharfProject.projectID
        (okBr, traceProject ++ traceBranches)

/-- Embeds `azureImporter.ImportRepositoryWritesProblem`: fetch the single
repository, then run the per-repository import on it. -/
def ImportRepositoryWritesProblem (i : AzureImporter) (w : WharfAPI)
    (a : AzureAPI) (orgName projectNameOrID repoNameOrID : String) :
    Bool × List WharfCall :=
  let (repo, ok) := GetRepositoryWritesProblem a orgName projectNameOrID repoNameOrID
  if ¬ ok then
    (false, [])
  else
    importKnownRepositoryWritesProblem i w a orgName repo

/- ## Trigger relay (the pull-request-created handler in package main) -/

/-- The single supported event type literal of `prCreatedTriggerHandler`. -/
def eventTypePullRequest : String := "git.pullrequest.created"

/-- The possible responses of the trigger handler. -/
inductive TriggerOutcome where
  | invalidBind
  | unsupportedEventType
  | invalidProjectID
  | missingEnvironment
  | unauthorized
  | triggerFailed
  | ok (resp : ProjectRunResponse)
deriving DecidableEq

/-- Embeds `prCreatedTriggerHandler`: bind the body, reject any event type
other than `git.pullrequest.created`, parse the project ID path parameter,
require the environment query parameter, then start the build with stage
`prcreated` and the `refs/heads/`-stripped source ref as branch.
`bindResult` models `ShouldBindJSON`, `projectIDParam` models
`ParseParamUint` and `environmentParam` models `RequireQueryString`. -/
def prCreatedTriggerHandler (w : WharfAPI)
    (bindResult : Except Unit PullRequestEvent)
    (projectIDParam : Option Nat) (environmentParam : Option String) :
    TriggerOutcome × List WharfCall :=
  match bindResult with
  | .error _ => (.invalidBind, [])
  | .ok t =>
      if t.eventType ≠ eventTypePullRequest then
        (.unsupportedEventType, [])
      else
        match projectIDParam with
        | none => (.invalidProjectID, [])
        | some projectID =>
            match environmentParam with
            | none => (.missingEnvironment, [])
            | some environment =>
                let run : ProjectRun :=
                  { projectID := projectID, stage := "prcreated",
                    branch := trimLeading t.resource.sourceRefName "refs/heads/",
                    environment := environment }
                match w.postProjectRun run with
                | .error .auth => (.unauthorized, [.postProjectRun run])
                | .error .other => (.triggerFailed, [.postProjectRun run])
                | .ok resp => (.ok resp, [.postProjectRun run])

/- ## Concrete sample data and oracle instances

Used by the closed evaluation theorems below.  The stub oracles answer every
request with an error; per-scenario instances override exactly the endpoints
the scenario exercises. -/

/-- A Wharf API oracle that fails every call. -/
def wharfAPIStub : WharfAPI :=
  { getToken := fun _ => .error ()
    getTokenList := fun _ => .error ()
    createToken := fun _ => .error ()
    getProvider := fun _ => .error ()
    getProviderList := fun _ _ => .error ()
    getProjectList := fun _ _ _ => .error ()
    createProvider := fun _ => .error ()
    updateProject := fun _ _ => .error ()
    createProject := fun _ => .error ()
    createProjectBranch := fun _ _ => .error ()
    postProjectRun := fun _ => .error .other }

/-- An Azure API oracle that fails every call. -/
def azureAPIStub : AzureAPI :=
  { getFile := fun _ _ _ _ => .error .other
    getRefs := fun _ _ _ => .error ()
    getRepository := fun _ _ _ => .error ()
    getRepositoriesLegacy := fun _ _ => .error () }

/-- A sample Azure DevOps project. -/
def projEx : AzureProject :=
  { id := "proj-guid", name := "Proj", description := "desc", url := "",
    state := "wellFormed", revision := 1, visibility := "private" }

/-- A sample Azure DevOps repository living in `projEx`. -/
def repoEx : AzureRepository :=
  { id := "repo-guid", name := "Repo", url := "", project := projEx,
    defaultBranchRef := "refs/heads/main", size := 0, remoteURL := "",
    sshURL := "ssh://host/Repo" }

/-- A sample importer state with resolved token 7 and provider 3. -/
def iEx : AzureImporter :=
  { token := { tokenID := 7, token := "secret", userName := "user" },
    provider := { providerID := 3, name := "azuredevops",
                  url := "https://dev.azure.com/org", tokenID := 7 } }

/-- Environment for the missing-build-definition scenario: the file fetch
yields HTTP 404, the refs listing yields one branch, the Wharf project
search finds nothing and all Wharf writes succeed. -/
def aC2 : AzureAPI :=
  { azureAPIStub with
    getFile := fun _ _ _ _ => .error (.non2xx 404)
    getRefs := fun _ _ _ => .ok [{ name := "refs/heads/main" }] }

/-- Wharf side of the missing-build-definition scenario. -/
def wC2 : WharfAPI :=
  { wharfAPIStub with
    getProjectList := fun _ _ _ => .ok []
    createProject := fun _ => .ok { projectID := 42 }
    updateProject := fun _ _ => .ok { projectID := 42 }
    createProjectBranch := fun _ _ => .ok () }

/-- Wharf oracle accepting every branch call. -/
def wC3 : WharfAPI :=
  { wharfAPIStub with createProjectBranch := fun _ _ => .ok () }

/-- The repository's default branch, as listed remotely. -/
def branchMain : AzureBranch :=
  { name := "main", ref := "refs/heads/main", defaultBranch := false }

/-- A second remote branch. -/
def branchDev : AzureBranch :=
  { name := "dev", ref := "refs/heads/dev", defaultBranch := false }

/-- Token-resolution request without a token ID: user `some-user` with the
secret `another-secret`. -/
def tokenInputC4 : ResponseToken :=
  { tokenID := 0, token := "another-secret", userName := "some-user" }

/-- Wharf oracle whose token search returns one candidate for `some-user`,
holding a different secret. -/
def wC4 : WharfAPI :=
  { wharfAPIStub with
    getTokenList := fun _ =>
      .ok [{ tokenID := 1, token := "stored-secret", userName := "some-user" }] }

/-- A registration candidate stored in the orchestration API: ID 5, matching
kind and base URL. -/
def candidateC5 : ResponseProvider :=
  { providerID := 5, name := "azuredevops", url := "https://dev.azure.com/org",
    tokenID := 7 }

/-- Registration-resolution request with ID 0 (absent) for the same kind and
base URL as `candidateC5`. -/
def providerInputC5 : ResponseProvider :=
  { providerID := 0, name := "azuredevops", url := "https://dev.azure.com/org",
    tokenID := 7 }

/-- Wharf oracle whose provider search returns exactly `candidateC5`. -/
def wC5 : WharfAPI :=
  { wharfAPIStub with getProviderList := fun _ _ => .ok [candidateC5] }

/-- Wharf oracle whose project search returns TWO matching projects (IDs 10
and 11) and whose updates succeed. -/
def wC6 : WharfAPI :=
  { wharfAPIStub with
    getProjectList := fun _ _ _ => .ok [{ projectID := 10 }, { projectID := 11 }]
    updateProject := fun _ _ => .ok { projectID := 10 } }

/-- A repository whose linked project differs from the project the import
was scoped to (`projEx`): different ID and name. -/
def repoMismatch : AzureRepository :=
  { id := "repo-guid", name := "Repo", url := "",
    project := { id := "different-guid", name := "OtherProj",
                 description := "other-desc", url := "", state := "wellFormed",
                 revision := 1, visibility := "private" },
    defaultBranchRef := "refs/heads/main", size := 0, remoteURL := "",
    sshURL := "ssh://host/Repo" }

/-- Azure oracle for the mismatched-repository scenario: the single
repository fetched under scope (Org, Proj, Repo) is `repoMismatch`, whose
linked project is NOT `projEx`. -/
def aC7 : AzureAPI :=
  { azureAPIStub with
    getFile := fun _ _ _ _ => .ok "text"
    getRefs := fun _ _ _ => .ok [{ name := "refs/heads/main" }]
    getRepository := fun _ _ _ => .ok repoMismatch }

/-- Wharf side of the mismatched-repository scenario: no existing project,
all writes succeed. -/
def wC7 : WharfAPI :=
  { wharfAPIStub with
    getProjectList := fun _ _ _ => .ok []
    createProject := fun _ => .ok { projectID := 42 }
    createProjectBranch := fun _ _ => .ok () }

/-- Azure oracle for the legacy repositories fetch: count 1, with the single
repository's linked project differing from the requested one. -/
def aC7legacy : AzureAPI :=
  { azureAPIStub with
    getRepositoriesLegacy := fun _ _ => .ok { count := 1, value := [repoMismatch] } }

/-- A trigger event of an unsupported type. -/
def prPushedEvent : PullRequestEvent :=
  { eventType := "git.commit.pushed",
    resource := { pullRequestID := 1, sourceRefName := "refs/heads/main" } }

/-- Wharf oracle for the token-creation scenario: the token search fails, so
a token is created; everything provider-side still fails. -/
def wC10 : WharfAPI :=
  { wharfAPIStub with
    createToken := fun req => .ok { tokenID := 9, token := req.token,
                                    userName := req.userName } }

/-- Token-resolution input for the token-creation scenario. -/
def tokenInputC10 : ResponseToken :=
  { tokenID := 0, token := "secret", userName := "user" }

/-- Registration-resolution input for the token-creation scenario. -/
def providerInputC10 : ResponseProvider :=
  { providerID := 0, name := "azuredevops", url := "https://dev.azure.com/org",
    tokenID := 0 }

/- ## Helper lemmas -/

/-- Scanning a list that does not contain the rune yields Go's -1. -/
theorem indexRuneAux_of_not_mem (d : Char) (l : List Char) :
    ∀ i : Nat, d ∉ l → indexRuneAux l d i = -1 := by
  induction l with
  | nil => intro i _; rfl
  | cons c rest ih =>
      intro i h
      rw [List.mem_cons, not_or] at h
      have hcd : ¬ c = d := fun hc => h.1 (hc ▸ rfl)
      simp only [indexRuneAux, if_neg hcd]
      exact ih (i + 1) h.2

/- ## C1 -/

/-- C1: the naming translator is a pure function of its two string arguments
with: for every non-empty `groupName` containing no `/`,
`translate(groupName, projectName) = (groupName, projectName, "")`;
`translate("A/B", "C") = ("A", "B", "C")`; and splitting happens only on the
first `/`, so `translate("A/B/C", "D") = ("A", "B/C", "D")`. -/
theorem parseRepoRefParams_spec :
    (∀ groupName projectName : String, groupName ≠ "" → '/' ∉ groupName.toList →
      ParseRepoRefParams groupName projectName = (groupName, projectName, "")) ∧
    ParseRepoRefParams "A/B" "C" = ("A", "B", "C") ∧
    ParseRepoRefParams "A/B/C" "D" = ("A", "B/C", "D") := by
  refine ⟨?_, by decide, by decide⟩
  intro g p _hne hmem
  have hidx : stringIndexRune g '/' = -1 :=
    indexRuneAux_of_not_mem '/' g.toList 0 hmem
  simp [ParseRepoRefParams, splitStringOnceRune, hidx]

/-- Witness for C1's universally quantified part at a concrete slash-free
group name. -/
theorem parseRepoRefParams_spec_witness :
    ParseRepoRefParams "Org" "Proj" = ("Org", "Proj", "") :=
  parseRepoRefParams_spec.1 "Org" "Proj" (by decide) (by decide)

/- ## C8 -/

/-- C8: for every trigger request whose event type differs from the single
supported literal `git.pullrequest.created`, the handler answers with the
unsupported-event rejection and performs no Wharf API call at all — in
particular it never issues the start-build (`PostProjectRun`) call. -/
theorem prCreatedTrigger_rejects_unsupported_event (w : WharfAPI)
    (projectIDParam : Option Nat) (environmentParam : Option String)
    (t : PullRequestEvent) (h : t.eventType ≠ eventTypePullRequest) :
    prCreatedTriggerHandler w (.ok t) projectIDParam environmentParam =
      (.unsupportedEventType, []) ∧
    ∀ run, WharfCall.postProjectRun run ∉
      (prCreatedTriggerHandler w (.ok t) projectIDParam environmentParam).2 := by
  have h1 : prCreatedTriggerHandler w (.ok t) projectIDParam environmentParam =
      (.unsupportedEventType, []) := by
    simp [prCreatedTriggerHandler, h]
  exact ⟨h1, fun run hmem => by rw [h1] at hmem; simp at hmem⟩

/-- Witness for C8 at the concrete event type `git.commit.pushed`. -/
theorem prCreatedTrigger_rejects_unsupported_event_witness :
    prCreatedTriggerHandler wharfAPIStub (.ok prPushedEvent) (some 1) (some "dev") =
      (.unsupportedEventType, []) :=
  (prCreatedTrigger_rejects_unsupported_event wharfAPIStub (some 1) (some "dev")
    prPushedEvent (by decide)).1

/- ## C5 -/

/-- C5: evaluation of the registration lookup at the failing input.  The
request carries provider ID 0, and the search returns exactly one candidate
whose kind and URL match the request exactly; the claim (and the spec) say
such a candidate counts as found, but the code compares the candidates'
IDs against the requested (zero) ID, so the lookup reports not-found and
the resolution fails — without creating or reusing anything. -/
theorem getOrPostProvider_url_match_still_not_found :
    candidateC5.url = providerInputC5.url ∧
    candidateC5.name = providerInputC5.name ∧
    getOrPostProviderWritesProblem NewAzureImporter wC5 providerInputC5 =
      (zeroResponseProvider, false,
        [.getProviderList "azuredevops" "https://dev.azure.com/org"]) := by
  refine ⟨rfl, rfl, ?_⟩
  decide

/- ## C9 -/

/-- C9 counterexample: the file-contents request URL does NOT carry the
`api-version` query parameter, in either the current client's builder or the
pkg/requests one. -/
theorem newGetFile_lacks_api_version :
    ("api-version", "5.0") ∉ (newGetFile "" "Org" "Proj" "Repo" ".wharf-ci.yml").query ∧
    ("api-version", "5.0") ∉ (NewGetFile "Org" "Proj" ".wharf-ci.yml").query := by
  decide

/-- C9 (amended): five of the six provider request URLs (repository list,
single repository, organization project list, single project, git refs)
carry the `api-version=5.0` query parameter; the file-contents URL instead
carries exactly the single `scopePath` parameter, in both the current
client's builder and the pkg/requests builder. -/
theorem urlBuilders_api_version
    (basePath orgName projectNameOrID repoNameOrID filePath refsFilter
      rawGroup rawProj : String) :
    ("api-version", "5.0") ∈
      (newGetRepository basePath orgName projectNameOrID repoNameOrID).query ∧
    ("api-version", "5.0") ∈
      (newGetRepositories basePath orgName projectNameOrID).query ∧
    ("api-version", "5.0") ∈ (newGetProject basePath orgName projectNameOrID).query ∧
    ("api-version", "5.0") ∈ (newGetProjects basePath orgName).query ∧
    ("api-version", "5.0") ∈
      (newGetGitRefs basePath orgName projectNameOrID repoNameOrID refsFilter).query ∧
    (newGetFile basePath orgName projectNameOrID repoNameOrID filePath).query =
      [("scopePath", "/" ++ filePath)] ∧
    (NewGetFile rawGroup rawProj filePath).query = [("scopePath", "/" ++ filePath)] := by
  refine ⟨?_, ?_, ?_, ?_, ?_, rfl, rfl⟩ <;>
    simp [newGetRepository, newGetRepositories, newGetProject, newGetProjects,
      newGetGitRefs, newUrlWithPath]

/- ## C3 -/

/-- C3 counterexample: with two remote branches (all Wharf calls
succeeding), the importer issues TWO branch calls — one per branch, each
carrying a single branch — refuting that the full replacement list is
submitted in one call. -/
theorem importBranches_two_branches_two_calls :
    importBranchesWritesProblem NewAzureImporter wC3 "refs/heads/main"
      [branchMain, branchDev] 42 =
      (true,
        [.createProjectBranch 42 { name := "main", default := true },
         .createProjectBranch 42 { name := "dev", default := false }]) ∧
    (importBranchesWritesProblem NewAzureImporter wC3 "refs/heads/main"
      [branchMain, branchDev] 42).2.length ≠ 1 := by
  refine ⟨by decide, by decide⟩

/-- C3 (amended): for every imported branch list, when every branch call
succeeds the importer issues exactly one `CreateProjectBranch` call per
remote branch, in listing order, each carrying that single branch and
marked default exactly when its ref equals the repository's default-branch
reference; the whole step succeeds. -/
theorem importBranches_one_call_per_branch (i : AzureImporter) (w : WharfAPI)
    (defaultBranchRef : String) (wharfProjectID : Nat)
    (hok : ∀ pid req, w.createProjectBranch pid req = .ok ()) :
    ∀ branches : List AzureBranch,
      importBranchesWritesProblem i w defaultBranchRef branches wharfProjectID =
        (true, branches.map (fun b => WharfCall.createProjectBranch wharfProjectID
          { name := b.name, default := b.ref == defaultBranchRef })) := by
  intro branches
  induction branches with
  | nil => rfl
  | cons b rest ih =>
      simp only [importBranchesWritesProblem, hok, ih, List.map_cons]

/-- Witness for C3's amended statement on a concrete one-branch list. -/
theorem importBranches_one_call_per_branch_witness :
    importBranchesWritesProblem NewAzureImporter wC3 "refs/heads/main"
      [branchMain] 42 =
      (true, [.createProjectBranch 42 { name := "main", default := true }]) :=
  importBranches_one_call_per_branch NewAzureImporter wC3 "refs/heads/main" 42
    (fun _ _ => rfl) [branchMain]

/- ## C4 -/

/-- C4 counterexample: token resolution without a token ID for user
`some-user` with secret `another-secret`, where the search returns one
candidate holding a different secret: the resolution FAILS (found = false,
Go zero token) and the trace shows that no token-creation call was made —
refuting that the importer creates a new token rather than failing. -/
theorem getOrPostToken_mismatch_fails_without_create :
    getOrPostTokenWritesProblem NewAzureImporter wC4 tokenInputC4 =
      (zeroResponseToken, false, [.getTokenList "some-user"]) ∧
    ∀ req, WharfCall.createToken req ∉
      (getOrPostTokenWritesProblem NewAzureImporter wC4 tokenInputC4).2.2 := by
  have h1 : getOrPostTokenWritesProblem NewAzureImporter wC4 tokenInputC4 =
      (zeroResponseToken, false, [.getTokenList "some-user"]) := by decide
  exact ⟨h1, fun req hmem => by rw [h1] at hmem; simp at hmem⟩

/-- C4 (amended): in token resolution without a token ID, when the search by
user name succeeds with a non-empty candidate list, a candidate counts as
found only when its secret equals the supplied secret exactly; and when no
candidate's secret matches, the importer reports not-found — failing the
resolution without issuing any token-creation call. -/
theorem getOrPostToken_requires_exact_secret
    (i : AzureImporter) (w : WharfAPI) (token : ResponseToken)
    (searchList : List ResponseToken)
    (hid : token.tokenID = 0)
    (hnz : ¬(token.userName = "" ∧ token.token = ""))
    (hsearch : w.getTokenList token.userName = .ok searchList)
    (hne : searchList ≠ []) :
    ((getOrPostTokenWritesProblem i w token).2.1 = true →
      (getOrPostTokenWritesProblem i w token).1 ∈ searchList ∧
      (getOrPostTokenWritesProblem i w token).1.token = token.token) ∧
    ((∀ t ∈ searchList, t.token ≠ token.token) →
      getOrPostTokenWritesProblem i w token =
        (zeroResponseToken, false, [.getTokenList token.userName])) := by
  have hlen : ¬ searchList.length = 0 := by
    simpa [List.length_eq_zero] using hne
  have hid' : ¬ token.tokenID ≠ 0 := by simp [hid]
  rcases hfind : searchList.find? (fun t => t.token == token.token) with _ | t
  · have hres : getOrPostTokenWritesProblem i w token =
        (zeroResponseToken, false, [.getTokenList token.userName]) := by
      simp only [getOrPostTokenWritesProblem, if_neg hid', if_neg hnz, hsearch,
        if_neg hlen, hfind]
    refine ⟨?_, fun _ => hres⟩
    rw [hres]
    simp
  · have hres : getOrPostTokenWritesProblem i w token =
        (t, true, [.getTokenList token.userName]) := by
      simp only [getOrPostTokenWritesProblem, if_neg hid', if_neg hnz, hsearch,
        if_neg hlen, hfind]
    have hmem : t ∈ searchList := List.mem_of_find?_eq_some hfind
    have hsec : t.token = token.token := by
      have := List.find?_some hfind
      simpa using this
    refine ⟨fun _ => by rw [hres]; exact ⟨hmem, hsec⟩, fun hall => ?_⟩
    exact absurd hsec (hall t hmem)

/-- Witness for C4's amended statement: with one stored candidate and a
non-matching supplied secret, resolution fails with no creation call. -/
theorem getOrPostToken_requires_exact_secret_witness :
    getOrPostTokenWritesProblem iEx wC4 tokenInputC4 =
      (zeroResponseToken, false, [.getTokenList "some-user"]) :=
  (getOrPostToken_requires_exact_secret iEx wC4 tokenInputC4
      [{ tokenID := 1, token := "stored-secret", userName := "some-user" }]
      rfl (by decide) rfl (by decide)).2
    (by decide)

/- ## C6 -/

/-- C6 counterexample: the project search returns TWO matches (IDs 10, 11),
yet the importer does not create a new project — it updates the FIRST match
in place under its existing ID 10. -/
theorem createOrUpdate_two_matches_updates_first :
    wC6.getProjectList "Repo" "Org/Proj" 3 = .ok [{ projectID := 10 }, { projectID := 11 }] ∧
    createOrUpdateWharfProject iEx wC6 "Org" repoEx "bd" =
      (.ok { projectID := 10 },
        [.getProjectList "Repo" "Org/Proj" 3,
         .updateProject 10
          { name := "Repo", tokenID := 7, groupName := "Org/Proj",
            buildDefinition := "bd", description := "desc", providerID := 3,
            gitURL := "ssh://host/Repo" }]) := by
  exact ⟨rfl, rfl⟩

/-- C6 (amended): when the project search by (name, group name, registration
ID) succeeds, a non-empty result list leads to an update of the FIRST listed
match under its existing ID with no creation call, and an empty result list
leads to a creation call with no update call. -/
theorem createOrUpdate_first_match_or_create
    (i : AzureImporter) (w : WharfAPI) (orgName : String) (repo : AzureRepository)
    (buildDef : String) (searchList : List ResponseProject)
    (hsearch : w.getProjectList repo.name (orgName ++ "/" ++ repo.project.name)
      i.provider.providerID = .ok searchList) :
    (searchList ≠ [] →
      (∀ req, WharfCall.createProject req ∉
        (createOrUpdateWharfProject i w orgName repo buildDef).2) ∧
      (∃ req, WharfCall.updateProject (searchList.headD zeroResponseProject).projectID
        req ∈ (createOrUpdateWharfProject i w orgName repo buildDef).2)) ∧
    (searchList = [] →
      (∀ projectID req, WharfCall.updateProject projectID req ∉
        (createOrUpdateWharfProject i w orgName repo buildDef).2) ∧
      (∃ req, WharfCall.createProject req ∈
        (createOrUpdateWharfProject i w orgName repo buildDef).2)) := by
  constructor
  · intro hne
    have hlen : searchList.length > 0 := List.length_pos.mpr hne
    have hres : (createOrUpdateWharfProject i w orgName repo buildDef).2 =
        [.getProjectList repo.name (orgName ++ "/" ++ repo.project.name)
          i.provider.providerID,
         .updateProject (searchList.headD zeroResponseProject).projectID
          { name := repo.name, tokenID := i.token.tokenID,
            groupName := orgName ++ "/" ++ repo.project.name,
            buildDefinition := buildDef, description := repo.project.description,
            providerID := i.provider.providerID, gitURL := repo.sshURL }] := by
      simp only [createOrUpdateWharfProject, hsearch, if_pos hlen]
    rw [hres]
    exact ⟨fun req hmem => by simp at hmem,
      ⟨_, List.mem_cons_of_mem _ (List.mem_singleton.mpr rfl)⟩⟩
  · intro hnil
    subst hnil
    have hres : (createOrUpdateWharfProject i w orgName repo buildDef).2 =
        [.getProjectList repo.name (orgName ++ "/" ++ repo.project.name)
          i.provider.providerID,
         .createProject
          { name := repo.name, tokenID := i.token.tokenID,
            groupName := orgName ++ "/" ++ repo.project.name,
            buildDefinition := buildDef, description := repo.project.description,
            providerID := i.provider.providerID, gitURL := repo.sshURL,
            remoteProjectID := repo.project.id }] := by
      simp only [createOrUpdateWharfProject, hsearch]
      simp
    rw [hres]
    exact ⟨fun projectID req hmem => by simp at hmem,
      ⟨_, List.mem_cons_of_mem _ (List.mem_singleton.mpr rfl)⟩⟩

/-- Witness for C6's amended statement: with the two-match search result the
trace contains an update of project 10. -/
theorem createOrUpdate_first_match_or_create_witness :
    ∃ req, WharfCall.updateProject 10 req ∈
      (createOrUpdateWharfProject iEx wC6 "Org" repoEx "bd").2 :=
  ((createOrUpdate_first_match_or_create iEx wC6 "Org" repoEx "bd"
      [{ projectID := 10 }, { projectID := 11 }] rfl).1 (by decide)).2

/- ## C7 -/

/-- C7 counterexample: in the current code path, the repository fetched for
scope (Org, Proj, Repo) is linked to a DIFFERENT project
(id `different-guid`, name `OtherProj`, whereas the legacy check would have
required `proj-guid`); the import nevertheless succeeds and creates an
orchestration project for it — no consistency failure occurs. -/
theorem import_mismatched_project_still_creates :
    repoMismatch.project.id ≠ projEx.id ∧
    ImportRepositoryWritesProblem iEx wC7 aC7 "Org" "Proj" "Repo" =
      (true,
        [.getProjectList "Repo" "Org/OtherProj" 3,
         .createProject
          { name := "Repo", tokenID := 7, groupName := "Org/OtherProj",
            buildDefinition := "text", description := "other-desc",
            providerID := 3, gitURL := "ssh://host/Repo",
            remoteProjectID := "different-guid" },
         .createProjectBranch 42 { name := "main", default := true }]) := by
  exact ⟨by decide, by decide⟩

/-- C7 (amended): the project-ID consistency check lives in the superseded
client variant only: there, whenever the repositories response has count 1
but its repository's linked project ID differs from the expected project's
ID, the fetch fails, returning the Go zero repository and ok = false. -/
theorem legacyGetRepository_project_mismatch_fails
    (a : AzureAPI) (groupName : String) (project : AzureProject)
    (resp : RepositoryResponse)
    (hresp : a.getRepositoriesLegacy groupName project.name = .ok resp)
    (hcount : resp.count = 1)
    (hmismatch : (resp.value.headD zeroAzureRepository).project.id ≠ project.id) :
    legacyGetRepositoryWritesProblem a groupName project =
      (zeroAzureRepository, false) := by
  simp only [legacyGetRepositoryWritesProblem, hresp, hcount]
  rw [if_neg (by simp), if_pos hmismatch]

/-- Witness for C7's amended statement at the concrete mismatched response. -/
theorem legacyGetRepository_project_mismatch_fails_witness :
    legacyGetRepositoryWritesProblem aC7legacy "Org" projEx =
      (zeroAzureRepository, false) :=
  legacyGetRepository_project_mismatch_fails aC7legacy "Org" projEx
    { count := 1, value := [repoMismatch] } rfl rfl (by decide)

/- ## C10 -/

/-- Every token-creation request that token resolution issues carries the
ProviderID of the receiver's CURRENT provider record. -/
theorem getOrPostToken_trace_createToken (i : AzureImporter) (w : WharfAPI)
    (token : ResponseToken) (req : RequestToken)
    (hmem : WharfCall.createToken req ∈ (getOrPostTokenWritesProblem i w token).2.2) :
    req.providerID = i.provider.providerID := by
  by_cases h1 : token.tokenID ≠ 0
  · rcases h2 : w.getToken token.tokenID with e | tk <;>
      simp [getOrPostTokenWritesProblem, h1, h2] at hmem
  · by_cases h2 : token.userName = "" ∧ token.token = ""
    · simp [getOrPostTokenWritesProblem, h1, h2] at hmem
    · rcases h3 : w.getTokenList token.userName with e | lst
      · rcases h4 : w.createToken { token := token.token, userName := token.userName, providerID := i.provider.providerID } with e2 | ct <;>
          simp [getOrPostTokenWritesProblem, h1, h2, h3, h4] at hmem <;>
          rw [hmem]
      · by_cases h4 : lst.length = 0
        · rcases h5 : w.createToken { token := token.token, userName := token.userName, providerID := i.provider.providerID } with e2 | ct <;>
            simp [getOrPostTokenWritesProblem, h1, h2, h3, h4, h5] at hmem <;>
            rw [hmem]
        · rcases h5 : lst.find? (fun t => t.token == token.token) with _ | t <;>
            simp [getOrPostTokenWritesProblem, h1, h2, h3, h4, h5] at hmem

/-- Registration resolution never issues a token-creation call. -/
theorem getOrPostProvider_trace_no_createToken (i : AzureImporter) (w : WharfAPI)
    (provider : ResponseProvider) (req : RequestToken) :
    WharfCall.createToken req ∉ (getOrPostProviderWritesProblem i w provider).2.2 := by
  intro hmem
  by_cases h1 : provider.providerID ≠ 0
  · rcases h2 : w.getProvider provider.providerID with e | p <;>
      simp [getOrPostProviderWritesProblem, h1, h2] at hmem
  · rcases h3 : w.getProviderList provider.name provider.url with e | lst
    · rcases h4 : w.createProvider { name := provider.name, url := provider.url, tokenID := provider.tokenID } with e2 | cp <;>
        simp [getOrPostProviderWritesProblem, h1, h3, h4] at hmem
    · by_cases h4 : lst.length = 0
      · rcases h5 : w.createProvider { name := provider.name, url := provider.url, tokenID := provider.tokenID } with e2 | cp <;>
          simp [getOrPostProviderWritesProblem, h1, h3, h4, h5] at hmem
      · rcases h5 : lst.find? (fun p => p.providerID == provider.providerID) with _ | p <;>
          simp [getOrPostProviderWritesProblem, h1, h3, h4, h5] at hmem

/-- C10: whenever the per-request initialization creates a new identity
token, the token-creation request carries provider-reference 0 — because
`InitWritesProblem` resolves the token strictly before the provider, the
importer's provider record is still its zero value at token-creation time.
The hypothesis `hzero` reflects that `NewAzureImporter` starts the receiver
with the zero provider record. -/
theorem init_createToken_providerID_zero (i0 : AzureImporter) (w : WharfAPI)
    (token : ResponseToken) (provider : ResponseProvider)
    (urlParseOK : String → Bool) (req : RequestToken)
    (hzero : i0.provider.providerID = 0)
    (hmem : WharfCall.createToken req ∈
      (InitWritesProblem i0 w token provider urlParseOK).2.2) :
    req.providerID = 0 := by
  rw [← hzero]
  unfold InitWritesProblem at hmem
  rcases htok : getOrPostTokenWritesProblem i0 w token with ⟨tok, okTok, traceTok⟩
  rw [htok] at hmem
  dsimp only at hmem
  have hfromTok : WharfCall.createToken req ∈ traceTok →
      req.providerID = i0.provider.providerID := fun h =>
    getOrPostToken_trace_createToken i0 w token req (by rw [htok]; exact h)
  cases okTok with
  | false =>
      simp only [Bool.false_eq_true, not_false_eq_true, if_true] at hmem
      exact hfromTok hmem
  | true =>
      simp only [not_true_eq_false, if_false] at hmem
      rcases hprov : getOrPostProviderWritesProblem { i0 with token := tok } w
          { provider with tokenID := tok.tokenID } with ⟨prov, okProv, traceProv⟩
      rw [hprov] at hmem
      dsimp only at hmem
      have hmem' : WharfCall.createToken req ∈ traceTok ++ traceProv := by
        cases okProv with
        | false =>
            simpa using hmem
        | true =>
            cases hurl : urlParseOK prov.url <;> simp [hurl] at hmem <;>
              exact List.mem_append.mpr hmem
      rcases List.mem_append.mp hmem' with hl | hr
      · exact hfromTok hl
      · exact absurd (by rw [hprov]; exact hr)
          (getOrPostProvider_trace_no_createToken { i0 with token := tok } w
            { provider with tokenID := tok.tokenID } req)

/-- Witness for C10: a concrete run in which the token search fails, a token
is created, and the recorded creation request indeed carries provider 0. -/
theorem init_createToken_providerID_zero_witness :
    WharfCall.createToken { token := "secret", userName := "user", providerID := 0 } ∈
      (InitWritesProblem NewAzureImporter wC10 tokenInputC10 providerInputC10
        (fun _ => true)).2.2 ∧
    ({ token := "secret", userName := "user", providerID := 0 } :
      RequestToken).providerID = 0 :=
  ⟨by decide,
    init_createToken_providerID_zero NewAzureImporter wC10 tokenInputC10
      providerInputC10 (fun _ => true)
      { token := "secret", userName := "user", providerID := 0 } rfl (by decide)⟩

/- ## C2 -/

/-- When every branch call succeeds, the branch-import loop succeeds and its
trace is exactly one branch call per remote branch. -/
theorem importBranches_all_ok (i : AzureImporter) (w : WharfAPI)
    (defaultBranchRef : String) (wharfProjectID : Nat)
    (hok : ∀ pid req, w.createProjectBranch pid req = .ok ())
    (branches : List AzureBranch) :
    importBranchesWritesProblem i w defaultBranchRef branches wharfProjectID =
      (true, branches.map (fun b => WharfCall.createProjectBranch wharfProjectID { name := b.name, default := b.ref == defaultBranchRef })) := by
  induction branches with
  | nil => rfl
  | cons b rest ih =>
      simp only [importBranchesWritesProblem, hok, ih, List.map_cons]

/-- Everything the branch-import loop ever emits is a branch call. -/
theorem importBranches_trace_shape (i : AzureImporter) (w : WharfAPI)
    (defaultBranchRef : String) (wharfProjectID : Nat)
    (branches : List AzureBranch) (c : WharfCall)
    (hmem : c ∈ (importBranchesWritesProblem i w defaultBranchRef branches
      wharfProjectID).2) :
    ∃ pid req, c = WharfCall.createProjectBranch pid req := by
  induction branches with
  | nil => simp [importBranchesWritesProblem] at hmem
  | cons b rest ih =>
      rcases h : w.createProjectBranch wharfProjectID { name := b.name, default := b.ref == defaultBranchRef } with e | u
      · simp only [importBranchesWritesProblem, h] at hmem
        simp at hmem
        exact ⟨_, _, hmem⟩
      · simp only [importBranchesWritesProblem, h] at hmem
        rcases List.mem_cons.mp hmem with hc | hc
        · exact ⟨_, _, hc⟩
        · exact ih hc

/-- C2: for every single-repository import in which the build-definition
file fetch yields a NotFound (HTTP 404) classified error, the file fetch
itself returns an empty string with success; and — provided the remaining
remote calls succeed — the import succeeds, and every project create or
update call it issues carries empty build-definition text. -/
theorem importKnown_missing_file_empty_buildDef
    (i : AzureImporter) (w : WharfAPI) (a : AzureAPI) (orgName : String)
    (repo : AzureRepository) (refs : List GitRef)
    (searchList : List ResponseProject)
    (hfile : a.getFile orgName repo.project.name repo.name buildDefinitionFileName =
      .error (.non2xx 404))
    (hrefs : a.getRefs orgName repo.project.name repo.name = .ok refs)
    (hsearch : w.getProjectList repo.name (orgName ++ "/" ++ repo.project.name)
      i.provider.providerID = .ok searchList)
    (hcreate : ∀ req, ∃ p, w.createProject req = .ok p)
    (hupdate : ∀ projectID req, ∃ p, w.updateProject projectID req = .ok p)
    (hbranch : ∀ pid req, w.createProjectBranch pid req = .ok ()) :
    GetFileWritesProblem a orgName repo.project.name repo.name
      buildDefinitionFileName = ("", true) ∧
    (importKnownRepositoryWritesProblem i w a orgName repo).1 = true ∧
    (∀ req, WharfCall.createProject req ∈
      (importKnownRepositoryWritesProblem i w a orgName repo).2 →
        req.buildDefinition = "") ∧
    (∀ projectID req, WharfCall.updateProject projectID req ∈
      (importKnownRepositoryWritesProblem i w a orgName repo).2 →
        req.buildDefinition = "") := by
  have hfileRes : GetFileWritesProblem a orgName repo.project.name repo.name
      buildDefinitionFileName = ("", true) := by
    simp [GetFileWritesProblem, hfile]
  have hbrRes : GetRepositoryBranchesWritesProblem a orgName repo.project.name repo.name =
      (refs.map (fun r => ({ name := trimLeading r.name "refs/heads/", ref := r.name, defaultBranch := false } : AzureBranch)), true) := by
    simp [GetRepositoryBranchesWritesProblem, hrefs]
  by_cases hlen : searchList.length > 0
  · obtain ⟨p, hp⟩ := hupdate (searchList.headD zeroResponseProject).projectID { name := repo.name, tokenID := i.token.tokenID, groupName := orgName ++ "/" ++ repo.project.name, buildDefinition := "", description := repo.project.description, providerID := i.provider.providerID, gitURL := repo.sshURL }
    have hco : createOrUpdateWharfProject i w orgName repo "" =
        (.ok p,
          [.getProjectList repo.name (orgName ++ "/" ++ repo.project.name) i.provider.providerID,
           .updateProject (searchList.headD zeroResponseProject).projectID { name := repo.name, tokenID := i.token.tokenID, groupName := orgName ++ "/" ++ repo.project.name, buildDefinition := "", description := repo.project.description, providerID := i.provider.providerID, gitURL := repo.sshURL }]) := by
      simp only [createOrUpdateWharfProject, hsearch, if_pos hlen, hp]
    have hir : importRepositoryWritesProblem i w orgName repo "" =
        (p, true,
          [.getProjectList repo.name (orgName ++ "/" ++ repo.project.name) i.provider.providerID,
           .updateProject (searchList.headD zeroResponseProject).projectID { name := repo.name, tokenID := i.token.tokenID, groupName := orgName ++ "/" ++ repo.project.name, buildDefinition := "", description := repo.project.description, providerID := i.provider.providerID, gitURL := repo.sshURL }]) := by
      simp only [importRepositoryWritesProblem, hco]
    have hall : importKnownRepositoryWritesProblem i w a orgName repo =
        (true,
          [.getProjectList repo.name (orgName ++ "/" ++ repo.project.name) i.provider.providerID,
           .updateProject (searchList.headD zeroResponseProject).projectID { name := repo.name, tokenID := i.token.tokenID, groupName := orgName ++ "/" ++ repo.project.name, buildDefinition := "", description := repo.project.description, providerID := i.provider.providerID, gitURL := repo.sshURL }] ++
          (refs.map (fun r => ({ name := trimLeading r.name "refs/heads/", ref := r.name, defaultBranch := false } : AzureBranch))).map (fun b => WharfCall.createProjectBranch p.projectID { name := b.name, default := b.ref == repo.defaultBranchRef })) := by
      simp only [importKnownRepositoryWritesProblem, hfileRes, hbrRes, hir,
        importBranches_all_ok i w repo.defaultBranchRef p.projectID hbranch]
      simp
    refine ⟨hfileRes, by rw [hall], ?_, ?_⟩
    · intro req hmem
      rw [hall] at hmem
      rcases List.mem_append.mp hmem with h | h
      · simp at h
      · rcases List.mem_map.mp h with ⟨b, _, heq⟩
        simp at heq
    · intro projectID req hmem
      rw [hall] at hmem
      rcases List.mem_append.mp hmem with h | h
      · rcases List.mem_cons.mp h with hc | hc
        · simp at hc
        · rcases List.mem_singleton.mp hc
          rfl
      · rcases List.mem_map.mp h with ⟨b, _, heq⟩
        simp at heq
  · obtain ⟨p, hp⟩ := hcreate { name := repo.name, tokenID := i.token.tokenID, groupName := orgName ++ "/" ++ repo.project.name, buildDefinition := "", description := repo.project.description, providerID := i.provider.providerID, gitURL := repo.sshURL, remoteProjectID := repo.project.id }
    have hco : createOrUpdateWharfProject i w orgName repo "" =
        (.ok p,
          [.getProjectList repo.name (orgName ++ "/" ++ repo.project.name) i.provider.providerID,
           .createProject { name := repo.name, tokenID := i.token.tokenID, groupName := orgName ++ "/" ++ repo.project.name, buildDefinition := "", description := repo.project.description, providerID := i.provider.providerID, gitURL := repo.sshURL, remoteProjectID := repo.project.id }]) := by
      simp only [createOrUpdateWharfProject, hsearch, if_neg hlen, hp]
    have hir : importRepositoryWritesProblem i w orgName repo "" =
        (p, true,
          [.getProjectList repo.name (orgName ++ "/" ++ repo.project.name) i.provider.providerID,
           .createProject { name := repo.name, tokenID := i.token.tokenID, groupName := orgName ++ "/" ++ repo.project.name, buildDefinition := "", description := repo.project.description, providerID := i.provider.providerID, gitURL := repo.sshURL, remoteProjectID := repo.project.id }]) := by
      simp only [importRepositoryWritesProblem, hco]
    have hall : importKnownRepositoryWritesProblem i w a orgName repo =
        (true,
          [.getProjectList repo.name (orgName ++ "/" ++ repo.project.name) i.provider.providerID,
           .createProject { name := repo.name, tokenID := i.token.tokenID, groupName := orgName ++ "/" ++ repo.project.name, buildDefinition := "", description := repo.project.description, providerID := i.provider.providerID, gitURL := repo.sshURL, remoteProjectID := repo.project.id }] ++
          (refs.map (fun r => ({ name := trimLeading r.name "refs/heads/", ref := r.name, defaultBranch := false } : AzureBranch))).map (fun b => WharfCall.createProjectBranch p.projectID { name := b.name, default := b.ref == repo.defaultBranchRef })) := by
      simp only [importKnownRepositoryWritesProblem, hfileRes, hbrRes, hir,
        importBranches_all_ok i w repo.defaultBranchRef p.projectID hbranch]
      simp
    refine ⟨hfileRes, by rw [hall], ?_, ?_⟩
    · intro req hmem
      rw [hall] at hmem
      rcases List.mem_append.mp hmem with h | h
      · rcases List.mem_cons.mp h with hc | hc
        · simp at hc
        · rcases List.mem_singleton.mp hc
          rfl
      · rcases List.mem_map.mp h with ⟨b, _, heq⟩
        simp at heq
    · intro projectID req hmem
      rw [hall] at hmem
      rcases List.mem_append.mp hmem with h | h
      · simp at h
      · rcases List.mem_map.mp h with ⟨b, _, heq⟩
        simp at heq

/-- Witness for C2: a concrete repository whose `.wharf-ci.yml` fetch is a
404; the import succeeds. -/
theorem importKnown_missing_file_empty_buildDef_witness :
    (importKnownRepositoryWritesProblem iEx wC2 aC2 "Org" repoEx).1 = true :=
  (importKnown_missing_file_empty_buildDef iEx wC2 aC2 "Org" repoEx
      [{ name := "refs/heads/main" }] [] rfl rfl rfl
      (fun _ => ⟨{ projectID := 42 }, rfl⟩)
      (fun _ _ => ⟨{ projectID := 42 }, rfl⟩)
      (fun _ _ => rfl)).2.1
